import Mathlib

/-!
Verification of the zigluau C shim (src/src/zigluau/luau.cpp).

The shim has two entry points: `zig_registerAssertionHandler`, which installs
`assertionHandler` into the embedded Luau runtime's global assertion-handler
slot, and `zig_luau_free`, which forwards an opaque pointer to the C library's
`free`.  We embed the shim as pure functions over an explicit process state.
-/

namespace Zigluau

/-- The type of a Luau assertion handler: it receives the failed expression's
text, the source file name, the line number and the enclosing function name,
and yields the text it writes to standard output together with its integer
return status (non-zero requests abort). -/
def HandlerFn := String → String → Int → String → String × Int

/-- The static `assertionHandler` of luau.cpp.  The first component is the
exact text written by `printf("%s(%d): ASSERTION FAILED: %s\n", file, line,
expr)`; the second is the returned status, the constant `1`. -/
def assertionHandler (expr file : String) (line : Int) (function : String) :
    String × Int :=
  (file ++ "(" ++ toString line ++ "): ASSERTION FAILED: " ++ expr ++ "\n", 1)

/-- Process state observable through the shim: the embedded runtime's global
assertion-handler slot (`none` models the runtime's initial null handler), the
text accumulated on standard output, and the host allocator's set of live
allocation addresses. -/
structure ProcState where
  assertHandlerSlot : Option HandlerFn
  stdout : String
  heap : List Nat

/-- Modelled from the spec: the host allocator's release primitive (the C
library's `free`, which is not part of this repository).  A null handle
(encoded `none`) is a no-op; a non-null handle is removed from the set of live
allocations. -/
def cFree (heap : List Nat) (ptr : Option Nat) : List Nat :=
  match ptr with
  | none => heap
  | some p => heap.erase p

/-- `zig_registerAssertionHandler` of luau.cpp: the single unconditional
assignment `Luau::assertHandler() = assertionHandler`.  The write target
`Luau::assertHandler()` (a reference to the runtime's global handler slot) is
external to the repository and is modelled from the spec as the
`assertHandlerSlot` field of the process state. -/
def zig_registerAssertionHandler (s : ProcState) : ProcState :=
  { s with assertHandlerSlot := some assertionHandler }

/-- `zig_luau_free` of luau.cpp: the single call `free(ptr)` on the host
allocator, with all other process state untouched. -/
def zig_luau_free (s : ProcState) (ptr : Option Nat) : ProcState :=
  { s with heap := cFree s.heap ptr }

/-- Modelled from the spec: the embedded runtime raising an internal invariant
failure (this call site lives inside Luau, not in this repository).  The
runtime invokes the currently registered handler with the report tuple; the
handler's text is appended to standard output and its status is returned to
the runtime (`none` when no handler is installed). -/
def triggerAssert (s : ProcState) (expr file : String) (line : Int)
    (function : String) : ProcState × Option Int :=
  match s.assertHandlerSlot with
  | none => (s, none)
  | some h =>
      ({ s with stdout := s.stdout ++ (h expr file line function).1 },
       some (h expr file line function).2)

/-- Number of newline characters in a string; a string is exactly one
diagnostic line when this count is `1` and the text ends in a newline. -/
def newlineCount (s : String) : Nat :=
  s.data.count (Char.ofNat 10)

end Zigluau

namespace Zigluau

/-- C1: for every assertion report tuple the handler emits exactly the text
`<file>(<line>): ASSERTION FAILED: <expression>` followed by a newline, with
nothing else; in particular the tuple ("x > 0", "script.cpp", 42, "f") yields
the line `script.cpp(42): ASSERTION FAILED: x > 0`. -/
theorem assertionHandler_diagnostic_exact :
    (∀ (expr file : String) (line : Int) (function : String),
      (assertionHandler expr file line function).1
        = file ++ "(" ++ toString line ++ "): ASSERTION FAILED: " ++ expr
            ++ "\n") ∧
    (assertionHandler "x > 0" "script.cpp" 42 "f").1
        = "script.cpp(42): ASSERTION FAILED: x > 0\n" := by
  exact ⟨fun _ _ _ _ => rfl, rfl⟩

/-- C2: the registered handler returns a non-zero status for every input
tuple, thereby always requesting that the runtime abort. -/
theorem assertionHandler_returns_nonzero (expr file : String) (line : Int)
    (function : String) :
    (assertionHandler expr file line function).2 ≠ 0 := by
  simp [assertionHandler]

/-- C3: registration is idempotent: registering twice yields the same process
state as registering once, and a subsequent invariant failure produces the
same single diagnostic line either way. -/
theorem register_idempotent (s : ProcState) (expr file : String) (line : Int)
    (function : String) :
    zig_registerAssertionHandler (zig_registerAssertionHandler s)
        = zig_registerAssertionHandler s ∧
    triggerAssert (zig_registerAssertionHandler (zig_registerAssertionHandler s))
        expr file line function
      = triggerAssert (zig_registerAssertionHandler s) expr file line function ∧
    (triggerAssert (zig_registerAssertionHandler s) expr file line
        function).1.stdout
      = s.stdout ++ (assertionHandler expr file line function).1 := by
  exact ⟨rfl, rfl, rfl⟩

/-- C4: releasing a null handle is a no-op: the process state, including
standard output and the allocator's live set, is unchanged. -/
theorem free_null_noop (s : ProcState) : zig_luau_free s none = s := rfl

/-- C5: registration cannot fail (it is a total function consisting of one
unconditional assignment) and afterwards the runtime's global handler slot
holds the shim's callback regardless of what was installed before. -/
theorem register_installs_unconditionally (s : ProcState) :
    (zig_registerAssertionHandler s).assertHandlerSlot
      = some assertionHandler := rfl

/-- C6: when inputs carry no embedded newline, an invocation of the
registered handler appends exactly one diagnostic line to standard output and
changes nothing else: the handler slot and allocator state are untouched. -/
theorem handler_frame_effect (s : ProcState) (expr file : String) (line : Int)
    (function : String)
    (hexpr : Char.ofNat 10 ∉ expr.data) (hfile : Char.ofNat 10 ∉ file.data)
    (hline : Char.ofNat 10 ∉ (toString line).data) :
    (triggerAssert (zig_registerAssertionHandler s) expr file line
        function).1.assertHandlerSlot
      = (zig_registerAssertionHandler s).assertHandlerSlot ∧
    (triggerAssert (zig_registerAssertionHandler s) expr file line
        function).1.heap
      = (zig_registerAssertionHandler s).heap ∧
    (triggerAssert (zig_registerAssertionHandler s) expr file line
        function).1.stdout
      = (zig_registerAssertionHandler s).stdout
          ++ (assertionHandler expr file line function).1 ∧
    newlineCount (assertionHandler expr file line function).1 = 1 := by
  refine ⟨rfl, rfl, rfl, ?_⟩
  simp [newlineCount, assertionHandler, String.data_append,
    List.count_append, List.count_eq_zero_of_not_mem hexpr,
    List.count_eq_zero_of_not_mem hfile,
    List.count_eq_zero_of_not_mem hline]

/-- Witness for C6 at the concrete report ("x > 0", "script.cpp", 42, "f")
starting from the empty process state. -/
theorem handler_frame_effect_witness :
    (triggerAssert (zig_registerAssertionHandler ⟨none, "", []⟩) "x > 0"
        "script.cpp" 42 "f").1.assertHandlerSlot
      = (zig_registerAssertionHandler ⟨none, "", []⟩).assertHandlerSlot ∧
    (triggerAssert (zig_registerAssertionHandler ⟨none, "", []⟩) "x > 0"
        "script.cpp" 42 "f").1.heap
      = (zig_registerAssertionHandler ⟨none, "", []⟩).heap ∧
    (triggerAssert (zig_registerAssertionHandler ⟨none, "", []⟩) "x > 0"
        "script.cpp" 42 "f").1.stdout
      = (zig_registerAssertionHandler ⟨none, "", []⟩).stdout
          ++ (assertionHandler "x > 0" "script.cpp" 42 "f").1 ∧
    newlineCount (assertionHandler "x > 0" "script.cpp" 42 "f").1 = 1 :=
  handler_frame_effect ⟨none, "", []⟩ "x > 0" "script.cpp" 42 "f"
    (by decide) (by decide) (by decide)

/-- C7: `zig_luau_free` is semantically identical to the underlying host
allocator primitive applied to the same handle: its effect on the allocator
state is exactly the primitive's (null included), and every other component
of the process state is untouched, with no added validation or tracking. -/
theorem free_refines_host_primitive (s : ProcState) (ptr : Option Nat) :
    (zig_luau_free s ptr).heap = cFree s.heap ptr ∧
    (zig_luau_free s ptr).stdout = s.stdout ∧
    (zig_luau_free s ptr).assertHandlerSlot = s.assertHandlerSlot :=
  ⟨rfl, rfl, rfl⟩

/-- C8: both operations are total functions given by a single state update:
registration is one write of the handler slot and release is one application
of the host free primitive, with no loops, recursion or suspension. -/
theorem operations_single_update (s : ProcState) (ptr : Option Nat) :
    zig_registerAssertionHandler s
        = { s with assertHandlerSlot := some assertionHandler } ∧
    zig_luau_free s ptr = { s with heap := cFree s.heap ptr } :=
  ⟨rfl, rfl⟩

/-- C9: the registered handler returns exactly the constant 1 for every input
tuple, strictly stronger than merely being non-zero. -/
theorem assertionHandler_returns_one (expr file : String) (line : Int)
    (function : String) :
    (assertionHandler expr file line function).2 = 1 := rfl

/-- C10: the handler's emitted text and return status are independent of the
enclosing-function-name argument: two invocations differing only in that
argument produce identical results. -/
theorem assertionHandler_ignores_function (expr file : String) (line : Int)
    (fn₁ fn₂ : String) :
    assertionHandler expr file line fn₁ = assertionHandler expr file line fn₂ :=
  rfl

end Zigluau
